import Mathlib

/-
Verification development for the ai_saga turn-processing engine.

Shallow embedding of the Python sources under src/app/game:
  - domain/entities/game_session.py       (GameSessionEntity)
  - domain/entities/character.py          (CharacterStats, CharacterEntity)
  - domain/value_objects/game_state.py    (GameState, StateChanges)
  - domain/value_objects/dice.py          (DiceCheckType, DiceResult)
  - domain/services/game_master_service.py (GameMasterService)
  - domain/services/dice_service.py       (DiceService)
  - application/services/rag_context_builder.py (RAGContextBuilder)
  - application/use_cases/process_action.py (ProcessActionUseCase)
  - presentation/routes/game_routes.py    (submit_action lock key)
  - infrastructure/adapters/cache_service.py (CacheServiceAdapter.lock)

Conventions: UUIDs are modelled as Nat, datetimes as Nat ticks, Python ints
as Int or (where the source's pydantic field constraints pin them to be
non-negative) as Nat.  External services (Redis, the LLM, the embedder, the
repositories) are modelled as oracle data in an environment record, and the
use case is embedded as a pure function from that environment to an effect
trace plus an Except result, mirroring the statement order of the source.
-/

/-- Error taxonomy of the embedded engine.  The source raises ValueError with
a message; each distinct raise site gets its own constructor here.
forbidden corresponds to app.common.exception.Forbidden, which exists in the
codebase (used by generate_illustration.py) but, as proved below, is never
produced by ProcessActionUseCase. -/
inductive Err where
  | session_not_found
  | already_completed
  | not_active_state
  | cannot_advance_inactive
  | attribute_error (name : String)
  | upstream_embedding
  | upstream_llm
  | forbidden
deriving DecidableEq

/-- value_objects/session_status.py: ACTIVE, PAUSED, COMPLETED, ENDED. -/
inductive SessionStatus where
  | active
  | paused
  | completed
  | ended
deriving DecidableEq

/-- value_objects/ending_type.py: VICTORY, DEFEAT, NEUTRAL. -/
inductive EndingType where
  | victory
  | defeat
  | neutral
deriving DecidableEq

/-- value_objects/message_role.py: USER, ASSISTANT, SYSTEM. -/
inductive MessageRole where
  | user
  | assistant
  | system
deriving DecidableEq

/-- Difficulty enum of value_objects, used by DiceService.get_dc:
EASY, NORMAL, HARD, NIGHTMARE. -/
inductive Difficulty where
  | easy
  | normal
  | hard
  | nightmare
deriving DecidableEq

/-- value_objects/dice.py DiceCheckType: COMBAT, SKILL, SOCIAL, EXPLORATION. -/
inductive DiceCheckType where
  | combat
  | skill
  | social
  | exploration
deriving DecidableEq

/-- value_objects/game_state.py GameState: items, visited_locations,
met_npcs, discoveries (lists of strings, defaulting to empty). -/
structure GameState where
  items : List String := []
  visited_locations : List String := []
  met_npcs : List String := []
  discoveries : List String := []
deriving DecidableEq

/-- value_objects/game_state.py StateChanges: the pydantic model has exactly
the fields hp_change (int, default 0), items_gained, items_lost (lists),
location (optional string), npcs_met, discoveries (lists).  It has no
experience_gained field; see stateChangesFields below. -/
structure StateChanges where
  hp_change : Int := 0
  items_gained : List String := []
  items_lost : List String := []
  location : Option String := none
  npcs_met : List String := []
  discoveries : List String := []
deriving DecidableEq

/-- The field names declared on the StateChanges pydantic model in
domain/value_objects/game_state.py (lines 65-88), in declaration order.
Pydantic's BaseModel base class contributes no game attribute named
experience_gained either, so Python attribute lookup on a StateChanges
instance succeeds exactly for these names (plus model_* machinery). -/
def stateChangesFields : List String :=
  ["hp_change", "items_gained", "items_lost", "location", "npcs_met",
   "discoveries"]

/-- Name of the attribute read at process_action.py line 255 / 285 / 289. -/
def experience_gained_name : String := "experience_gained"

/-- domain/entities/game_session.py GameSessionEntity: frozen pydantic model. -/
structure GameSessionEntity where
  id : Nat
  character_id : Nat
  scenario_id : Nat
  current_location : String
  game_state : GameState := {}
  status : SessionStatus := SessionStatus.active
  turn_count : Nat := 0
  max_turns : Nat := 30
  ending_type : Option EndingType := none
  started_at : Nat
  ended_at : Option Nat := none
  last_activity_at : Nat
deriving DecidableEq

/-- The attribute names declared in the GameSessionEntity class body of
domain/entities/game_session.py: the twelve pydantic fields, the five domain
methods and the three domain properties, in source order.  No attribute named
update_game_state is declared there, and pydantic's BaseModel declares none
either, so Python attribute lookup of update_game_state on a session entity
raises AttributeError. -/
def gameSessionDeclaredAttrs : List String :=
  ["id", "character_id", "scenario_id", "current_location", "game_state",
   "status", "turn_count", "max_turns", "ending_type", "started_at",
   "ended_at", "last_activity_at",
   "advance_turn", "complete", "pause", "resume", "update_location",
   "is_active", "is_final_turn", "remaining_turns"]

/-- Name of the method called at process_action.py line 239. -/
def update_game_state_name : String := "update_game_state"

/-- game_session.py property is_active: status == ACTIVE. -/
def GameSessionEntity.is_active (s : GameSessionEntity) : Bool :=
  decide (s.status = SessionStatus.active)

/-- game_session.py property is_final_turn: turn_count >= max_turns. -/
def GameSessionEntity.is_final_turn (s : GameSessionEntity) : Bool :=
  decide (s.max_turns ≤ s.turn_count)

/-- game_session.py property remaining_turns: max(0, max_turns - turn_count),
which is exactly Nat subtraction. -/
def GameSessionEntity.remaining_turns (s : GameSessionEntity) : Nat :=
  s.max_turns - s.turn_count

/-- game_session.py advance_turn: raises ValueError on an inactive session,
else returns a copy with turn_count+1 and last_activity_at set to the current
time (the clock is passed explicitly as now). -/
def GameSessionEntity.advance_turn (s : GameSessionEntity) (now : Nat) :
    Except Err GameSessionEntity :=
  if s.is_active then
    Except.ok { s with turn_count := s.turn_count + 1, last_activity_at := now }
  else
    Except.error Err.cannot_advance_inactive

/-- game_session.py complete: unconditionally returns a COMPLETED copy with
the ending type and ended_at set. -/
def GameSessionEntity.complete (s : GameSessionEntity) (ending : EndingType)
    (now : Nat) : GameSessionEntity :=
  { s with status := SessionStatus.completed, ending_type := some ending,
           ended_at := some now }

/-- game_session.py update_location: returns a copy with the new
current_location.  The source performs no status check here. -/
def GameSessionEntity.update_location (s : GameSessionEntity)
    (new_location : String) : GameSessionEntity :=
  { s with current_location := new_location }

/-- domain/entities/character.py CharacterStats: frozen pydantic model with
hp >= 0, max_hp >= 1, level >= 1, experience >= 0, current_experience >= 0
(pydantic Field constraints), so all five are modelled as Nat. -/
structure CharacterStats where
  hp : Nat := 100
  max_hp : Nat := 100
  level : Nat := 1
  experience : Nat := 0
  current_experience : Nat := 0
deriving DecidableEq

/-- character.py take_damage: hp := max(0, hp - amount), exactly Nat sub. -/
def CharacterStats.take_damage (s : CharacterStats) (amount : Nat) :
    CharacterStats :=
  { s with hp := s.hp - amount }

/-- character.py heal: hp := min(max_hp, hp + amount). -/
def CharacterStats.heal (s : CharacterStats) (amount : Nat) : CharacterStats :=
  { s with hp := min s.max_hp (s.hp + amount) }

/-- character.py experience_for_next_level: level * 100. -/
def CharacterStats.experience_for_next_level (s : CharacterStats) : Nat :=
  s.level * 100

/-- character.py _level_up_once: subtract the threshold from
current_experience, increment level, raise max_hp by 10 * (level before the
increment) and full-heal to the new max_hp. -/
def CharacterStats.level_up_once (s : CharacterStats) : CharacterStats :=
  { s with level := s.level + 1,
           max_hp := s.max_hp + 10 * s.level,
           hp := s.max_hp + 10 * s.level,
           current_experience :=
             s.current_experience - s.experience_for_next_level }

/-- The while loop of character.py gain_experience, written with explicit
fuel.  Each iteration (taken only when current_experience >= level * 100 and
the source guarantees level >= 1, so the threshold is >= 100) strictly
decreases current_experience, hence fuel = current_experience + 1 always
suffices; level_loop_exit below proves the loop reaches its exit condition. -/
def CharacterStats.level_loop : Nat → CharacterStats → CharacterStats
  | 0, s => s
  | fuel + 1, s =>
      if s.experience_for_next_level ≤ s.current_experience then
        CharacterStats.level_loop fuel s.level_up_once
      else
        s

/-- character.py gain_experience: add amount to both the total and current
counters, then run the cascading level-up loop. -/
def CharacterStats.gain_experience (s : CharacterStats) (amount : Nat) :
    CharacterStats :=
  let s1 : CharacterStats :=
    { s with experience := s.experience + amount,
             current_experience := s.current_experience + amount }
  CharacterStats.level_loop (s1.current_experience + 1) s1

/-- domain/entities/character.py CharacterEntity (the fields the engine
touches). -/
structure CharacterEntity where
  id : Nat
  user_id : Nat
  scenario_id : Nat
  name : String
  stats : CharacterStats := {}
  inventory : List String := []
  is_active_flag : Bool := true
deriving DecidableEq

/-- domain/entities/game_message.py GameMessageEntity (id, session id, role,
content, creation timestamp; the merge algorithm reads only id and
created_at). -/
structure GameMessageEntity where
  id : Nat
  session_id : Nat
  role : MessageRole
  content : String
  created_at : Nat
deriving DecidableEq

/-- The deduplication pass of rag_context_builder.py merge_contexts: walk the
concatenated list, keep a message only if its id has not been seen yet. -/
def dedup_by_id (seen : List Nat) :
    List GameMessageEntity → List GameMessageEntity
  | [] => []
  | m :: rest =>
      if m.id ∈ seen then dedup_by_id seen rest
      else m :: dedup_by_id (m.id :: seen) rest

/-- application/services/rag_context_builder.py merge_contexts: concatenate
recent ++ rag, deduplicate by id keeping the first occurrence, then stable
sort ascending by created_at (Python's sorted is a stable merge sort, as is
List.mergeSort). -/
def RAGContextBuilder.merge_contexts (recent_messages rag_messages :
    List GameMessageEntity) : List GameMessageEntity :=
  let all_messages := recent_messages ++ rag_messages
  let unique_messages := dedup_by_id [] all_messages
  unique_messages.mergeSort (fun a b => decide (a.created_at ≤ b.created_at))

/-- game_master_service.py should_end_game: returns session.is_final_turn and
nothing else (the session carries no character HP). -/
def GameMasterService.should_end_game (session : GameSessionEntity) : Bool :=
  session.is_final_turn

/-- The JSON dict under the state_changes key of a parsed LLM response, as
read by game_master_service.py extract_state_changes: each field is present
or absent. -/
structure RawStateChanges where
  hp_change : Option Int := none
  items_gained : Option (List String) := none
  items_lost : Option (List String) := none
  location : Option String := none
  npcs_met : Option (List String) := none
  discoveries : Option (List String) := none
deriving DecidableEq

/-- A successfully parsed LLM response (game_master_service.py
parse_llm_response returned a dict): the engine reads its state_changes
sub-dict, which may itself be absent (parsed.get defaults it to the empty
dict, i.e. all fields absent). -/
structure ParsedResponse where
  state_changes : Option RawStateChanges := none
deriving DecidableEq

/-- game_master_service.py extract_state_changes: changes_dict =
parsed.get of state_changes defaulting to the empty dict; then every field is
read with .get and its neutral default (0, empty list, or None). -/
def GameMasterService.extract_state_changes (parsed : ParsedResponse) :
    StateChanges :=
  let changes_dict := parsed.state_changes.getD {}
  { hp_change := changes_dict.hp_change.getD 0,
    items_gained := changes_dict.items_gained.getD [],
    items_lost := changes_dict.items_lost.getD [],
    location := changes_dict.location,
    npcs_met := changes_dict.npcs_met.getD [],
    discoveries := changes_dict.discoveries.getD [] }

/-- domain/value_objects/dice.py DiceResult: stored fields.  The computed
fields (total, is_success, is_critical, is_fumble) are the defs below. -/
structure DiceResult where
  roll : Nat
  modifier : Nat
  dc : Nat
  check_type : DiceCheckType
  damage : Option Nat := none
deriving DecidableEq

/-- dice.py computed field total = roll + modifier. -/
def DiceResult.total (r : DiceResult) : Nat := r.roll + r.modifier

/-- dice.py computed field is_success = total >= dc. -/
def DiceResult.is_success (r : DiceResult) : Bool := decide (r.dc ≤ r.total)

/-- dice.py computed field is_critical = roll == 20. -/
def DiceResult.is_critical (r : DiceResult) : Bool := decide (r.roll = 20)

/-- dice.py computed field is_fumble = roll == 1. -/
def DiceResult.is_fumble (r : DiceResult) : Bool := decide (r.roll = 1)

/-- The random source consumed by dice_service.py, made explicit: the d20
outcome of roll_d20 (randint(1,20)), the individual damage dice outcomes of
roll_damage (i-th die of the given number of sides), and the flat randint(1,4)
outcome of roll_fumble_damage. -/
structure RandomSource where
  d20 : Nat
  damage_die : Nat → Nat → Nat
  fumble_die : Nat

/-- dice_service.py calculate_modifier: (level - 1) // 4 + 2.  Python floor
division agrees with Nat division for level >= 1 (the documented domain). -/
def DiceService.calculate_modifier (level : Nat) : Nat := (level - 1) / 4 + 2

/-- dice_service.py get_dc: the dict maps EASY to 8, NORMAL to 12, HARD to
15, NIGHTMARE to 18; the .get default 12 is unreachable since the dict is
total on the enum. -/
def DiceService.get_dc (difficulty : Difficulty) : Nat :=
  match difficulty with
  | Difficulty.easy => 8
  | Difficulty.normal => 12
  | Difficulty.hard => 15
  | Difficulty.nightmare => 18

/-- dice_service.py get_damage_dice: (count, sides) by level bracket. -/
def DiceService.get_damage_dice (level : Nat) : Nat × Nat :=
  if level ≤ 2 then (1, 4)
  else if level ≤ 4 then (1, 6)
  else if level ≤ 6 then (1, 8)
  else if level ≤ 8 then (1, 10)
  else (1, 12)

/-- dice_service.py roll_damage: double the die count on a critical, then sum
that many die outcomes from the random source. -/
def DiceService.roll_damage (rng : RandomSource) (level : Nat)
    (is_critical : Bool) : Nat :=
  let cs := DiceService.get_damage_dice level
  let count := if is_critical then cs.1 * 2 else cs.1
  (List.range count).foldl (fun acc i => acc + rng.damage_die i cs.2) 0

/-- dice_service.py roll_fumble_damage: a flat 1d4 from the random source. -/
def DiceService.roll_fumble_damage (rng : RandomSource) : Nat := rng.fumble_die

/-- dice_service.py perform_check: roll the d20, compute modifier and dc,
attach a damage roll exactly on a natural 20 (doubled dice) or a natural 1
(flat fumble die), and build the DiceResult. -/
def DiceService.perform_check (rng : RandomSource) (level : Nat)
    (difficulty : Difficulty) (check_type : DiceCheckType) : DiceResult :=
  let roll := rng.d20
  let modifier := DiceService.calculate_modifier level
  let dc := DiceService.get_dc difficulty
  let damage : Option Nat :=
    if roll = 20 then some (DiceService.roll_damage rng level true)
    else if roll = 1 then some (DiceService.roll_fumble_damage rng)
    else none
  { roll := roll, modifier := modifier, dc := dc, check_type := check_type,
    damage := damage }

/-- The externally observable repository, cache and service calls issued by
ProcessActionUseCase.execute, in issue order.  Persistence happens only
through session_save / character_save, and the idempotency slot is written
only through cache_set. -/
inductive Effect where
  | cache_get
  | session_load
  | embedding_call
  | message_create_user
  | recent_fetch
  | similar_fetch
  | llm_generate_normal
  | llm_generate_ending
  | character_load
  | character_save
  | image_generate
  | message_create_assistant
  | message_create_ending
  | session_save
  | cache_set
deriving DecidableEq

/-- The response returned to the HTTP layer, restricted to the fields the
claims mention (schemas/response.py GameActionResponse carries turn_count,
max_turns and is_ending; GameEndingResponse carries total_turns). -/
inductive EngineResponse where
  | action (turn_count : Nat) (max_turns : Nat) (is_ending : Bool)
  | ending (total_turns : Nat)
deriving DecidableEq

/-- Oracle data for one submission: the outcomes of every external
collaborator the use case consults, in the order the source consults them.
cached models the idempotency-cache lookup; session_lookup the session
repository; embed_ok / llm_ok whether the embedding and narrative services
succeed; parsed the result of parse_llm_response on the LLM content;
ending_type_parsed the result of EndingType.from_string on the ending text;
recent / similar the two message-repository query results; now the clock. -/
structure EngineEnv where
  cached : Option EngineResponse := none
  session_lookup : Option GameSessionEntity := none
  embed_ok : Bool := true
  llm_ok : Bool := true
  parsed : Option ParsedResponse := none
  ending_type_parsed : EndingType := EndingType.neutral
  recent : List GameMessageEntity := []
  similar : List GameMessageEntity := []
  character_lookup : Option CharacterEntity := none
  image_generation_enabled : Bool := false
  image_generation_interval : Nat := 0
  now : Nat := 0

/-- process_action.py _validate_session (lines 166-184): raise if the session
status is COMPLETED, then raise if it is not ACTIVE.  The source receives
user_id but never reads it — no ownership comparison of any kind is
performed, so no Forbidden error can arise here. -/
def ProcessActionUseCase.validate_session (session : GameSessionEntity)
    (user_id : Nat) : Except Err Unit :=
  if session.status = SessionStatus.completed then
    Except.error Err.already_completed
  else if session.is_active = false then
    Except.error Err.not_active_state
  else
    Except.ok ()

/-- process_action.py _handle_normal_turn (lines 186-397).  The LLM call
comes first; on success, if parse_llm_response produced a dict the branch at
lines 230-326 runs: it builds StateChanges (extract_state_changes, pure) and
then evaluates session.update_game_state(state_changes) at line 239.
GameSessionEntity declares no update_game_state attribute
(gameSessionDeclaredAttrs), so Python raises AttributeError there and every
later statement of the branch — the location update, the
state_changes.experience_gained read at line 255, the character HP/XP/
inventory updates and the character save — is unreachable.  If parsing
failed, the fallback branch does pure text extraction, optionally generates
an illustration, embeds the AI reply, appends the assistant message and
builds the response. -/
def ProcessActionUseCase.handle_normal_turn (env : EngineEnv)
    (session : GameSessionEntity) :
    List Effect × Except Err (GameSessionEntity × EngineResponse) :=
  if env.llm_ok = false then
    ([Effect.llm_generate_normal], Except.error Err.upstream_llm)
  else
    match env.parsed with
    | some parsed_dict =>
        let _state_changes := GameMasterService.extract_state_changes parsed_dict
        ([Effect.llm_generate_normal],
         Except.error (Err.attribute_error update_game_state_name))
    | none =>
        let image_effects : List Effect :=
          if env.image_generation_enabled &&
              (decide (env.image_generation_interval = 0) ||
               decide (session.turn_count % env.image_generation_interval = 0))
          then [Effect.image_generate] else []
        if env.embed_ok = false then
          ([Effect.llm_generate_normal] ++ image_effects ++
             [Effect.embedding_call],
           Except.error Err.upstream_embedding)
        else
          ([Effect.llm_generate_normal] ++ image_effects ++
             [Effect.embedding_call, Effect.message_create_assistant],
           Except.ok (session,
             EngineResponse.action session.turn_count session.max_turns
               (decide (session.remaining_turns ≤ 1))))

/-- process_action.py _handle_ending (lines 399-465): LLM call for the ending
narrative, parse the ending type, mark the session COMPLETED (not saved here),
load the character for its name, append the ending message, and build the
GameEndingResponse. -/
def ProcessActionUseCase.handle_ending (env : EngineEnv)
    (session : GameSessionEntity) :
    List Effect × Except Err (GameSessionEntity × EngineResponse) :=
  if env.llm_ok = false then
    ([Effect.llm_generate_ending], Except.error Err.upstream_llm)
  else
    let session1 := session.complete env.ending_type_parsed env.now
    ([Effect.llm_generate_ending, Effect.character_load,
      Effect.message_create_ending],
     Except.ok (session1, EngineResponse.ending session1.turn_count))

/-- process_action.py execute (lines 77-164), step for step: idempotency
cache check (short-circuits on a hit), session load, _validate_session,
advance_turn, action embedding, user-message append, sliding-window fetch,
similarity fetch, merge_contexts, the should_end_game branch into
_handle_ending or _handle_normal_turn, and only then session save and
idempotency cache write.  Any error propagates and skips every later step. -/
def ProcessActionUseCase.execute (env : EngineEnv) (user_id : Nat) :
    List Effect × Except Err EngineResponse :=
  match env.cached with
  | some cached_response => ([Effect.cache_get], Except.ok cached_response)
  | none =>
    match env.session_lookup with
    | none =>
        ([Effect.cache_get, Effect.session_load],
         Except.error Err.session_not_found)
    | some session =>
      match ProcessActionUseCase.validate_session session user_id with
      | Except.error e =>
          ([Effect.cache_get, Effect.session_load], Except.error e)
      | Except.ok _ =>
        match session.advance_turn env.now with
        | Except.error e =>
            ([Effect.cache_get, Effect.session_load], Except.error e)
        | Except.ok session1 =>
          if env.embed_ok = false then
            ([Effect.cache_get, Effect.session_load, Effect.embedding_call],
             Except.error Err.upstream_embedding)
          else
            let pre : List Effect :=
              [Effect.cache_get, Effect.session_load, Effect.embedding_call,
               Effect.message_create_user, Effect.recent_fetch,
               Effect.similar_fetch]
            let _context :=
              RAGContextBuilder.merge_contexts env.recent env.similar
            let handled :=
              if GameMasterService.should_end_game session1 then
                ProcessActionUseCase.handle_ending env session1
              else
                ProcessActionUseCase.handle_normal_turn env session1
            match handled.2 with
            | Except.error e => (pre ++ handled.1, Except.error e)
            | Except.ok result =>
                (pre ++ handled.1 ++ [Effect.session_save, Effect.cache_set],
                 Except.ok result.2)

/-- game_routes.py submit_action (lines 168-170): the distributed-lock key is
the f-string game:{session_id}:{idempotency_key}, so it depends on both the
session id and the caller-supplied idempotency token. -/
def submit_action_lock_key (session_id idempotency_key : String) : String :=
  "game:" ++ session_id ++ ":" ++ idempotency_key

/-- Modelled from the spec: section 4.1 gives the mutual-exclusion semantics
of the Redis lease lock behind CacheServiceAdapter.lock (the Redis client
itself is outside src) — two concurrent Acquire calls serialize exactly when
they use the same key, and different keys never contend.  Two submissions are
therefore serialized iff their submit_action lock keys coincide. -/
def serialized_submissions (sid1 tok1 sid2 tok2 : String) : Prop :=
  submit_action_lock_key sid1 tok1 = submit_action_lock_key sid2 tok2

/-- Location string used by the concrete sessions below. -/
def start_location_name : String := "start"

/-- Location string used when exercising update_location. -/
def forest_location_name : String := "forest"

/-- Character name used by the concrete character below. -/
def hero_name : String := "hero"

/-- A concrete ACTIVE session at turn 0 of 30, used as the oracle session of
the concrete environments below. -/
def base_session : GameSessionEntity :=
  { id := 1, character_id := 1, scenario_id := 1,
    current_location := start_location_name,
    started_at := 0, last_activity_at := 0 }

/-- The session of the C1 counterexample: ACTIVE, turn count already
incremented to 1 of max 30 — far from the turn limit. -/
def c1_session : GameSessionEntity := { base_session with turn_count := 1 }

/-- Stats of the C1 counterexample's character: 10 HP, so a 10-damage fold
brings HP to exactly 0. -/
def c1_stats : CharacterStats :=
  { hp := 10, max_hp := 100, level := 1, experience := 0,
    current_experience := 0 }

/-- A concrete COMPLETED session, for exercising the mutators on a
non-ACTIVE session. -/
def c10_session : GameSessionEntity :=
  { base_session with
    status := SessionStatus.completed
    turn_count := 10
    max_turns := 10
    ending_type := some EndingType.victory
    ended_at := some 5 }

/-- The character owning base_session's game (character id 1, owned by user
1).  The submissions in the C4 environment are issued by user 999, a
non-owner. -/
def c4_character : CharacterEntity :=
  { id := 1, user_id := 1, scenario_id := 1, name := hero_name }

/-- Environment for the C4 run: fresh idempotency slot, ACTIVE session owned
(via its character) by user 1, all external services healthy, LLM reply that
does not parse as JSON (fallback text path). -/
def c4_env : EngineEnv :=
  { session_lookup := some base_session,
    character_lookup := some c4_character }

/-- Environment for the C2 witness: healthy services and an LLM reply whose
JSON parse succeeds (with an empty state_changes payload). -/
def c2_env : EngineEnv :=
  { session_lookup := some base_session, parsed := some {} }

/-- Environment for the C6 witness: the embedding service fails. -/
def c6_env : EngineEnv :=
  { session_lookup := some base_session, embed_ok := false }

/-- Environment for the C1 witness: a fresh, healthy normal-turn run. -/
def c1_env : EngineEnv := { session_lookup := some base_session }

/-- Session id used by the C7 lock-key counterexample. -/
def c7_session_id : String := "a1b2"

/-- First idempotency token of the C7 counterexample. -/
def c7_token_a : String := "tok-a"

/-- Second idempotency token of the C7 counterexample. -/
def c7_token_b : String := "tok-b"

/-- Random source of the C9 scenario: natural d20 roll of 15; the damage dice
oracles are irrelevant because 15 is neither 20 nor 1. -/
def c9_rng : RandomSource :=
  { d20 := 15, damage_die := fun _ _ => 1, fumble_die := 1 }

/-- The cascading level-up loop never touches the total experience counter. -/
theorem level_loop_experience (fuel : Nat) : ∀ s : CharacterStats,
    (CharacterStats.level_loop fuel s).experience = s.experience := by
  induction fuel with
  | zero => intro s; rfl
  | succ n ih =>
      intro s
      unfold CharacterStats.level_loop
      by_cases hc : s.experience_for_next_level ≤ s.current_experience
      · rw [if_pos hc, ih]
        rfl
      · rw [if_neg hc]

/-- The cascading level-up loop never decreases the level. -/
theorem level_loop_level (fuel : Nat) : ∀ s : CharacterStats,
    s.level ≤ (CharacterStats.level_loop fuel s).level := by
  induction fuel with
  | zero => intro s; exact Nat.le_refl _
  | succ n ih =>
      intro s
      unfold CharacterStats.level_loop
      by_cases hc : s.experience_for_next_level ≤ s.current_experience
      · rw [if_pos hc]
        exact Nat.le_trans (Nat.le_succ _) (ih s.level_up_once)
      · rw [if_neg hc]

/-- With fuel exceeding the current experience counter and a level of at
least 1, the level-up loop reaches its exit condition: afterwards the
current counter is below the next threshold. -/
theorem level_loop_exit (fuel : Nat) : ∀ s : CharacterStats, 1 ≤ s.level →
    s.current_experience < fuel →
    (CharacterStats.level_loop fuel s).current_experience <
      (CharacterStats.level_loop fuel s).level * 100 := by
  induction fuel with
  | zero =>
      intro s _ hfuel
      exact absurd hfuel (Nat.not_lt_zero _)
  | succ n ih =>
      intro s hlvl hfuel
      unfold CharacterStats.level_loop
      by_cases hc : s.experience_for_next_level ≤ s.current_experience
      · rw [if_pos hc]
        have h100 : 100 ≤ s.level * 100 := by
          calc 100 = 1 * 100 := by omega
            _ ≤ s.level * 100 := Nat.mul_le_mul_right 100 hlvl
        apply ih
        · simp only [CharacterStats.level_up_once]
          omega
        · simp only [CharacterStats.level_up_once,
            CharacterStats.experience_for_next_level] at hc ⊢
          omega
      · rw [if_neg hc]
        simp only [CharacterStats.experience_for_next_level] at hc ⊢
        omega

/-- C5: gain_experience adds the amount to the total experience counter and
then runs the cascading level-up loop — subtract the threshold, increment the
level, add 10 * (old level) to max_hp and full-heal — until the current
counter is below the next threshold; the loop can fire zero, one, or several
times.  The spec's scenario (level 1, experience 90/90, max HP 100, gaining
50) lands on level 2, experience 140, current 40, max HP 110, HP 110; a lump
grant of 300 cascades through two levels; a grant of 0 below the threshold
changes nothing. -/
theorem c5_gain_experience_cascade (s : CharacterStats) (amount : Nat)
    (hlevel : 1 ≤ s.level) :
    (s.gain_experience amount).experience = s.experience + amount ∧
    s.level ≤ (s.gain_experience amount).level ∧
    (s.gain_experience amount).current_experience <
      (s.gain_experience amount).level * 100 ∧
    CharacterStats.gain_experience
      { hp := 100, max_hp := 100, level := 1, experience := 90,
        current_experience := 90 } 50 =
      { hp := 110, max_hp := 110, level := 2, experience := 140,
        current_experience := 40 } ∧
    CharacterStats.gain_experience
      { hp := 100, max_hp := 100, level := 1, experience := 0,
        current_experience := 0 } 300 =
      { hp := 130, max_hp := 130, level := 3, experience := 300,
        current_experience := 0 } ∧
    CharacterStats.gain_experience
      { hp := 50, max_hp := 100, level := 1, experience := 10,
        current_experience := 10 } 0 =
      { hp := 50, max_hp := 100, level := 1, experience := 10,
        current_experience := 10 } := by
  refine ⟨?_, ?_, ?_, by decide, by decide, by decide⟩
  · simp only [CharacterStats.gain_experience]
    rw [level_loop_experience]
  · simp only [CharacterStats.gain_experience]
    exact level_loop_level _
      { s with experience := s.experience + amount,
               current_experience := s.current_experience + amount }
  · simp only [CharacterStats.gain_experience]
    exact level_loop_exit _
      { s with experience := s.experience + amount,
               current_experience := s.current_experience + amount }
      hlevel (Nat.lt_succ_self _)

/-- Witness for C5 at the spec's scenario input. -/
theorem c5_witness :
    1 ≤ (⟨100, 100, 1, 90, 90⟩ : CharacterStats).level ∧
    (CharacterStats.gain_experience ⟨100, 100, 1, 90, 90⟩ 50).experience =
      90 + 50 :=
  ⟨by decide,
   (c5_gain_experience_cascade ⟨100, 100, 1, 90, 90⟩ 50 (by decide)).1⟩

/-- The deduplication pass keeps no id that was already marked seen, and its
output carries pairwise-distinct ids. -/
theorem dedup_by_id_spec (l : List GameMessageEntity) : ∀ seen : List Nat,
    (∀ x ∈ dedup_by_id seen l, x.id ∉ seen) ∧
    ((dedup_by_id seen l).map (fun m => m.id)).Nodup := by
  induction l with
  | nil => intro seen; exact ⟨fun x hx => absurd hx (List.not_mem_nil x), List.nodup_nil⟩
  | cons m rest ih =>
      intro seen
      unfold dedup_by_id
      by_cases hm : m.id ∈ seen
      · rw [if_pos hm]
        exact ih seen
      · rw [if_neg hm]
        have hrest := ih (m.id :: seen)
        constructor
        · intro x hx
          rcases List.mem_cons.mp hx with hx | hx
          · rw [hx]; exact hm
          · intro hxs
            exact hrest.1 x hx (List.mem_cons_of_mem _ hxs)
        · rw [List.map_cons, List.nodup_cons]
          constructor
          · intro hmem
            rcases List.mem_map.mp hmem with ⟨y, hy, hid⟩
            exact hrest.1 y hy (by rw [hid]; exact List.mem_cons_self _ _)
          · exact hrest.2

/-- C8: merge_contexts concatenates the recent window before the retrieved
set, deduplicates by message id keeping the first occurrence (so a
recent-window message wins over a retrieved duplicate), then stable-sorts
ascending by creation time; consequently the output never contains two
messages with the same id, its timestamps are non-decreasing, and two empty
inputs produce an empty output. -/
theorem c8_merge_contexts (recent_messages rag_messages :
    List GameMessageEntity) :
    ((RAGContextBuilder.merge_contexts recent_messages rag_messages).map
      (fun m => m.id)).Nodup ∧
    (RAGContextBuilder.merge_contexts recent_messages rag_messages).Pairwise
      (fun a b => a.created_at ≤ b.created_at) ∧
    RAGContextBuilder.merge_contexts [] [] = [] := by
  refine ⟨?_, ?_, by simp [RAGContextBuilder.merge_contexts, dedup_by_id]⟩
  · simp only [RAGContextBuilder.merge_contexts]
    have hperm :
        ((dedup_by_id [] (recent_messages ++ rag_messages)).mergeSort
          (fun a b => decide (a.created_at ≤ b.created_at))).Perm
          (dedup_by_id [] (recent_messages ++ rag_messages)) :=
      List.mergeSort_perm _ _
    exact ((hperm.map (fun m => m.id)).nodup_iff).mpr
      (dedup_by_id_spec (recent_messages ++ rag_messages) []).2
  · simp only [RAGContextBuilder.merge_contexts]
    have hsorted := @List.sorted_mergeSort GameMessageEntity
      (fun (a b : GameMessageEntity) => decide (a.created_at ≤ b.created_at))
      (fun a b c hab hbc => by
        simp only [decide_eq_true_iff] at hab hbc ⊢
        omega)
      (fun a b => by
        simp only [Bool.or_eq_true, decide_eq_true_iff]
        omega)
      (dedup_by_id [] (recent_messages ++ rag_messages))
    exact hsorted.imp (fun h => decide_eq_true_iff.mp h)

/-- C9: perform_check returns a DiceResult whose modifier is
(level-1)/4 + 2 (integer division), whose dc is 8/12/15/18 for
EASY/NORMAL/HARD/NIGHTMARE, whose total is roll + modifier, succeeding iff
total >= dc, critical iff the d20 shows 20, fumble iff it shows 1, and
carrying a damage value exactly on those two rolls — the doubled damage dice
on a 20, the flat fumble die on a 1.  The spec scenario (level 5, NORMAL,
roll 15) is the closing conjunct: modifier 3, dc 12, no damage, total 18,
success, not critical. -/
theorem c9_perform_check (rng : RandomSource) (level : Nat)
    (difficulty : Difficulty) (check_type : DiceCheckType)
    (hlevel : 1 ≤ level) (hlo : 1 ≤ rng.d20) (hhi : rng.d20 ≤ 20) :
    (DiceService.perform_check rng level difficulty check_type).modifier =
      (level - 1) / 4 + 2 ∧
    (DiceService.perform_check rng level difficulty check_type).dc =
      DiceService.get_dc difficulty ∧
    (DiceService.get_dc Difficulty.easy = 8 ∧
     DiceService.get_dc Difficulty.normal = 12 ∧
     DiceService.get_dc Difficulty.hard = 15 ∧
     DiceService.get_dc Difficulty.nightmare = 18) ∧
    (DiceService.perform_check rng level difficulty check_type).total =
      (DiceService.perform_check rng level difficulty check_type).roll +
      (DiceService.perform_check rng level difficulty check_type).modifier ∧
    ((DiceService.perform_check rng level difficulty check_type).is_success =
        true ↔
      (DiceService.perform_check rng level difficulty check_type).dc ≤
        (DiceService.perform_check rng level difficulty check_type).total) ∧
    ((DiceService.perform_check rng level difficulty check_type).is_critical =
        true ↔ rng.d20 = 20) ∧
    ((DiceService.perform_check rng level difficulty check_type).is_fumble =
        true ↔ rng.d20 = 1) ∧
    ((DiceService.perform_check rng level difficulty check_type).damage.isSome
        = true ↔ (rng.d20 = 20 ∨ rng.d20 = 1)) ∧
    (rng.d20 = 20 →
      (DiceService.perform_check rng level difficulty check_type).damage =
        some (DiceService.roll_damage rng level true)) ∧
    (rng.d20 = 1 →
      (DiceService.perform_check rng level difficulty check_type).damage =
        some (DiceService.roll_fumble_damage rng)) ∧
    DiceService.perform_check c9_rng 5 Difficulty.normal DiceCheckType.skill =
      { roll := 15, modifier := 3, dc := 12, check_type := DiceCheckType.skill,
        damage := none } ∧
    (DiceService.perform_check c9_rng 5 Difficulty.normal
      DiceCheckType.skill).total = 18 ∧
    (DiceService.perform_check c9_rng 5 Difficulty.normal
      DiceCheckType.skill).is_success = true ∧
    (DiceService.perform_check c9_rng 5 Difficulty.normal
      DiceCheckType.skill).is_critical = false := by
  refine ⟨rfl, rfl, ⟨rfl, rfl, rfl, rfl⟩, rfl, ?_, ?_, ?_, ?_, ?_, ?_,
    ?_, ?_, ?_, ?_⟩
  · simp [DiceResult.is_success]
  · simp [DiceService.perform_check, DiceResult.is_critical]
  · simp [DiceService.perform_check, DiceResult.is_fumble]
  · simp only [DiceService.perform_check]
    by_cases h20 : rng.d20 = 20
    · simp [h20]
    · by_cases h1 : rng.d20 = 1
      · simp [h20, h1]
      · simp [h20, h1]
  · intro h20
    simp [DiceService.perform_check, h20]
  · intro h1
    have h20 : rng.d20 ≠ 20 := by omega
    simp [DiceService.perform_check, h20, h1]
  · simp [DiceService.perform_check, DiceService.calculate_modifier,
      DiceService.get_dc, c9_rng]
  · rfl
  · rfl
  · rfl

/-- Witness for C9, instantiating the general part at the spec scenario:
level 5 against NORMAL with a d20 roll of 15. -/
theorem c9_witness :
    1 ≤ 5 ∧ 1 ≤ c9_rng.d20 ∧ c9_rng.d20 ≤ 20 ∧
    (DiceService.perform_check c9_rng 5 Difficulty.normal
      DiceCheckType.skill).modifier = (5 - 1) / 4 + 2 :=
  ⟨by decide, by decide, by decide,
   (c9_perform_check c9_rng 5 Difficulty.normal DiceCheckType.skill
     (by decide) (by decide) (by decide)).1⟩

/-- Counterexample for C10: on a concrete COMPLETED session, update_location
does not fail — it returns a modified snapshot whose current_location is the
new value, while the original location was different; so location updates
are not rejected on non-ACTIVE sessions. -/
theorem c10_counterexample :
    c10_session.status = SessionStatus.completed ∧
    (c10_session.update_location forest_location_name).current_location =
      forest_location_name ∧
    c10_session.current_location = start_location_name ∧
    (start_location_name = forest_location_name) = False :=
  ⟨rfl, rfl, rfl, eq_false (by decide)⟩

/-- C10 (amended): advance_turn is rejected with an error on every
non-ACTIVE session, but update_location performs no status check at all — it
always returns the snapshot with only current_location replaced, for any
status. -/
theorem c10_inactive_session_mutators (s : GameSessionEntity) (now : Nat)
    (hs : s.is_active = false) :
    s.advance_turn now = Except.error Err.cannot_advance_inactive ∧
    (∀ loc, s.update_location loc = { s with current_location := loc }) ∧
    (∀ loc, (s.update_location loc).status = s.status ∧
      (s.update_location loc).turn_count = s.turn_count) := by
  refine ⟨?_, fun loc => rfl, fun loc => ⟨rfl, rfl⟩⟩
  simp [GameSessionEntity.advance_turn, hs]

/-- Witness for C10 at the concrete COMPLETED session. -/
theorem c10_witness :
    c10_session.is_active = false ∧
    c10_session.advance_turn 7 = Except.error Err.cannot_advance_inactive :=
  ⟨by decide, (c10_inactive_session_mutators c10_session 7 (by decide)).1⟩

/-- Counterexample for C7: two submissions for the same session whose
idempotency tokens differ produce different lock keys, and lock keys that
differ never contend, so the two submissions are not serialized — the claim
of session-level serialization regardless of tokens fails. -/
theorem c7_counterexample :
    (serialized_submissions c7_session_id c7_token_a
      c7_session_id c7_token_b) = False :=
  eq_false (by
    unfold serialized_submissions submit_action_lock_key c7_session_id
      c7_token_a c7_token_b
    decide)

/-- C7 (amended): for a fixed session id, two submissions are serialized by
the route-level lock exactly when their idempotency tokens are equal, because
the lock key concatenates the session id and the token. -/
theorem c7_serialized_iff_same_token (sid tok1 tok2 : String) :
    serialized_submissions sid tok1 sid tok2 ↔ tok1 = tok2 := by
  constructor
  · intro h
    simp only [serialized_submissions, submit_action_lock_key] at h
    have hdata := congrArg String.data h
    rw [String.data_append, String.data_append] at hdata
    exact String.ext (List.append_cancel_left hdata)
  · intro h
    rw [serialized_submissions, h]

/-- Counterexample for C1: a concrete run one turn into a 30-turn session,
whose character would drop to exactly 0 HP when the fold applies 10 damage:
should_end_game is still false, so the claimed biconditional (final-turn
decision iff turn limit reached or HP reaches 0 after the fold) is false. -/
theorem c1_counterexample :
    GameMasterService.should_end_game c1_session = false ∧
    (c1_stats.take_damage 10).hp = 0 ∧
    ((GameMasterService.should_end_game c1_session = true) ↔
      (c1_session.max_turns ≤ c1_session.turn_count ∨
        (c1_stats.take_damage 10).hp = 0)) = False :=
  ⟨by decide, by decide, eq_false (by decide)⟩

/-- C1 (amended): the final-turn decision consulted by execute is
should_end_game of the advanced session, which holds exactly when the
incremented turn count has reached max_turns; character HP is not an input
to the decision (the branch is chosen before any narrative or fold step, and
the ending sub-flow is entered iff the turn-limit condition holds — for
every oracle environment, in particular regardless of any HP data). -/
theorem c1_final_turn_decision :
    (∀ s : GameSessionEntity,
      GameMasterService.should_end_game s = true ↔
        s.max_turns ≤ s.turn_count) ∧
    (∀ (env : EngineEnv) (u : Nat) (s : GameSessionEntity),
      env.cached = none → env.session_lookup = some s →
      s.status = SessionStatus.active → env.embed_ok = true →
      (Effect.llm_generate_ending ∈ (ProcessActionUseCase.execute env u).1 ↔
        s.max_turns ≤ s.turn_count + 1)) := by
  constructor
  · intro s
    simp [GameMasterService.should_end_game, GameSessionEntity.is_final_turn]
  · intro env u s hc hs hstatus hembed
    have hval : ProcessActionUseCase.validate_session s u = Except.ok () := by
      simp [ProcessActionUseCase.validate_session, hstatus,
        GameSessionEntity.is_active]
    have hadv : s.advance_turn env.now = Except.ok
        { s with turn_count := s.turn_count + 1,
                 last_activity_at := env.now } := by
      simp [GameSessionEntity.advance_turn, GameSessionEntity.is_active,
        hstatus]
    by_cases hfinal : s.max_turns ≤ s.turn_count + 1
    · have hend : GameMasterService.should_end_game
          { s with turn_count := s.turn_count + 1,
                   last_activity_at := env.now } = true := by
        simp [GameMasterService.should_end_game,
          GameSessionEntity.is_final_turn, hfinal]
      simp only [ProcessActionUseCase.execute, hc, hs, hval, hadv, hembed,
        Bool.true_eq_false, if_false, hend, if_true]
      rw [iff_true_right hfinal]
      simp only [ProcessActionUseCase.handle_ending]
      by_cases hllm : env.llm_ok = false
      · simp [hllm]
      · simp [hllm]
    · have hend : GameMasterService.should_end_game
          { s with turn_count := s.turn_count + 1,
                   last_activity_at := env.now } = false := by
        simp [GameMasterService.should_end_game,
          GameSessionEntity.is_final_turn, hfinal]
      simp only [ProcessActionUseCase.execute, hc, hs, hval, hadv, hembed,
        Bool.true_eq_false, if_false, hend]
      rw [iff_false_right hfinal]
      simp only [ProcessActionUseCase.handle_normal_turn]
      by_cases hllm : env.llm_ok = false
      · simp [hllm]
      · cases hp : env.parsed with
        | some p => simp [hllm, hp]
        | none =>
            by_cases hembed2 : env.embed_ok = false
            · simp [hllm, hp, hembed2]
            · simp [hllm, hp, hembed2]

/-- Witness for C1 at a concrete fresh run: turn 0 of 30 advances to 1, far
below the limit, and the ending sub-flow is not entered. -/
theorem c1_witness :
    (Effect.llm_generate_ending ∈
        (ProcessActionUseCase.execute c1_env 7).1 ↔
      base_session.max_turns ≤ base_session.turn_count + 1) :=
  (c1_final_turn_decision.2 c1_env 7 base_session rfl rfl rfl rfl)

/-- C4: _validate_session never consults the requesting user.  Its result is
identical for any two user ids, it can never produce the Forbidden error,
and on the concrete run where user 999 submits to the session owned (via its
character) by user 1, validation passes and the engine proceeds through the
narrative call all the way to the session save. -/
theorem c4_validate_ignores_user :
    (∀ (s : GameSessionEntity) (u1 u2 : Nat),
      ProcessActionUseCase.validate_session s u1 =
        ProcessActionUseCase.validate_session s u2) ∧
    (∀ (s : GameSessionEntity) (u : Nat),
      (ProcessActionUseCase.validate_session s u =
        Except.error Err.forbidden) = False) ∧
    (c4_character.user_id = 1 ∧ (c4_character.user_id = 999) = False) ∧
    ProcessActionUseCase.validate_session base_session 999 = Except.ok () ∧
    Effect.llm_generate_normal ∈ (ProcessActionUseCase.execute c4_env 999).1 ∧
    Effect.session_save ∈ (ProcessActionUseCase.execute c4_env 999).1 := by
  refine ⟨fun s u1 u2 => rfl, ?_, ⟨rfl, eq_false (by decide)⟩,
    rfl, by decide, by decide⟩
  intro s u
  apply eq_false
  intro h
  simp only [ProcessActionUseCase.validate_session] at h
  by_cases h1 : s.status = SessionStatus.completed
  · rw [if_pos h1] at h
    exact Err.noConfusion (Except.error.inj h)
  · rw [if_neg h1] at h
    by_cases h2 : s.is_active = false
    · rw [if_pos h2] at h
      exact Err.noConfusion (Except.error.inj h)
    · rw [if_neg h2] at h
      exact Except.noConfusion h

/-- Counterexample for C3: the StateChanges value object declares no
experienceGained field — experience_gained is not among the model's declared
field names. -/
theorem c3_counterexample :
    (experience_gained_name ∈ stateChangesFields) = False :=
  eq_false (by decide)

/-- C3 (amended): StateChanges carries hp_change, items_gained, items_lost,
location, npcs_met and discoveries — and no experienceGained field — and
extract_state_changes is tolerant: a missing state_changes dict yields the
all-neutral value, and each absent field defaults to 0, the empty list, or
absence rather than failing. -/
theorem c3_tolerant_state_changes_defaults :
    (experience_gained_name ∈ stateChangesFields) = False ∧
    GameMasterService.extract_state_changes {} = ({} : StateChanges) ∧
    ∀ raw : RawStateChanges,
      (raw.hp_change = none →
        (GameMasterService.extract_state_changes
          { state_changes := some raw }).hp_change = 0) ∧
      (raw.items_gained = none →
        (GameMasterService.extract_state_changes
          { state_changes := some raw }).items_gained = []) ∧
      (raw.items_lost = none →
        (GameMasterService.extract_state_changes
          { state_changes := some raw }).items_lost = []) ∧
      (raw.location = none →
        (GameMasterService.extract_state_changes
          { state_changes := some raw }).location = none) ∧
      (raw.npcs_met = none →
        (GameMasterService.extract_state_changes
          { state_changes := some raw }).npcs_met = []) ∧
      (raw.discoveries = none →
        (GameMasterService.extract_state_changes
          { state_changes := some raw }).discoveries = []) := by
  refine ⟨eq_false (by decide), by decide, ?_⟩
  intro raw
  refine ⟨?_, ?_, ?_, ?_, ?_, ?_⟩ <;>
    intro h <;>
    simp [GameMasterService.extract_state_changes, h]

/-- Witness for C3 at the all-absent raw payload. -/
theorem c3_witness :
    (({} : RawStateChanges).hp_change = none) ∧
    (GameMasterService.extract_state_changes
      { state_changes := some {} }).hp_change = 0 :=
  ⟨rfl, (c3_tolerant_state_changes_defaults.2.2 {}).1 rfl⟩

/-- C2: the GameSessionEntity class declares no update_game_state attribute
and StateChanges declares no experience_gained field, so on every turn whose
LLM output parses as JSON the normal-turn handler fails with AttributeError
at the session.update_game_state call — before the session save, the
character save and the idempotency-cache write — and no successfully parsed
structured delta is ever folded into persisted state. -/
theorem c2_parsed_turn_attribute_error :
    (update_game_state_name ∈ gameSessionDeclaredAttrs) = False ∧
    (experience_gained_name ∈ stateChangesFields) = False ∧
    ∀ (env : EngineEnv) (u : Nat) (s : GameSessionEntity)
      (p : ParsedResponse),
      env.cached = none → env.session_lookup = some s →
      s.status = SessionStatus.active → env.embed_ok = true →
      env.llm_ok = true → env.parsed = some p →
      s.turn_count + 1 < s.max_turns →
      (ProcessActionUseCase.execute env u).2 =
        Except.error (Err.attribute_error update_game_state_name) ∧
      Effect.session_save ∉ (ProcessActionUseCase.execute env u).1 ∧
      Effect.character_save ∉ (ProcessActionUseCase.execute env u).1 ∧
      Effect.cache_set ∉ (ProcessActionUseCase.execute env u).1 := by
  refine ⟨eq_false (by decide), eq_false (by decide), ?_⟩
  intro env u s p hc hs hstatus hembed hllm hp hturn
  have hval : ProcessActionUseCase.validate_session s u = Except.ok () := by
    simp [ProcessActionUseCase.validate_session, hstatus,
      GameSessionEntity.is_active]
  have hadv : s.advance_turn env.now = Except.ok
      { s with turn_count := s.turn_count + 1,
               last_activity_at := env.now } := by
    simp [GameSessionEntity.advance_turn, GameSessionEntity.is_active,
      hstatus]
  have hend : GameMasterService.should_end_game
      { s with turn_count := s.turn_count + 1,
               last_activity_at := env.now } = false := by
    simp [GameMasterService.should_end_game, GameSessionEntity.is_final_turn]
    omega
  simp [ProcessActionUseCase.execute, hc, hs, hval, hadv, hembed, hend,
    ProcessActionUseCase.handle_normal_turn, hllm, hp]

/-- Witness for C2: a concrete healthy run at turn 0 of 30 whose LLM reply
parses as JSON dies with the AttributeError and persists nothing. -/
theorem c2_witness :
    (ProcessActionUseCase.execute c2_env 7).2 =
      Except.error (Err.attribute_error update_game_state_name) ∧
    Effect.session_save ∉ (ProcessActionUseCase.execute c2_env 7).1 := by
  have h := c2_parsed_turn_attribute_error.2.2 c2_env 7 base_session {}
    rfl rfl rfl rfl rfl rfl (by decide)
  exact ⟨h.1, h.2.1⟩

/-- C6: if the embedding step or the narrative-generation step fails, the
error propagates out of execute and neither the session save nor the
idempotency-cache write happens — the persisted turn count is untouched and
the idempotency slot stays empty, so the client can retry with the same
token. -/
theorem c6_upstream_failure_no_persist :
    ∀ (env : EngineEnv) (u : Nat) (s : GameSessionEntity),
      env.cached = none → env.session_lookup = some s →
      s.status = SessionStatus.active →
      (env.embed_ok = false ∨ env.llm_ok = false) →
      (∃ e, (ProcessActionUseCase.execute env u).2 = Except.error e) ∧
      Effect.session_save ∉ (ProcessActionUseCase.execute env u).1 ∧
      Effect.cache_set ∉ (ProcessActionUseCase.execute env u).1 := by
  intro env u s hc hs hstatus hfail
  have hval : ProcessActionUseCase.validate_session s u = Except.ok () := by
    simp [ProcessActionUseCase.validate_session, hstatus,
      GameSessionEntity.is_active]
  have hadv : s.advance_turn env.now = Except.ok
      { s with turn_count := s.turn_count + 1,
               last_activity_at := env.now } := by
    simp [GameSessionEntity.advance_turn, GameSessionEntity.is_active,
      hstatus]
  by_cases hembed : env.embed_ok = false
  · simp [ProcessActionUseCase.execute, hc, hs, hval, hadv, hembed]
  · have hembed2 : env.embed_ok = true := by
      cases henv : env.embed_ok
      · exact absurd henv hembed
      · rfl
    have hllm : env.llm_ok = false := by
      rcases hfail with h | h
      · exact absurd h hembed
      · exact h
    cases hend : GameMasterService.should_end_game
        { s with turn_count := s.turn_count + 1,
                 last_activity_at := env.now } with
    | true =>
        simp [ProcessActionUseCase.execute, hc, hs, hval, hadv, hembed2,
          hend, ProcessActionUseCase.handle_ending, hllm]
    | false =>
        cases hp : env.parsed with
        | some p =>
            simp [ProcessActionUseCase.execute, hc, hs, hval, hadv, hembed2,
              hend, ProcessActionUseCase.handle_normal_turn, hllm, hp]
        | none =>
            simp [ProcessActionUseCase.execute, hc, hs, hval, hadv, hembed2,
              hend, ProcessActionUseCase.handle_normal_turn, hllm, hp]

/-- Witness for C6: a concrete run whose embedding service fails persists
nothing and writes no idempotency entry. -/
theorem c6_witness :
    (∃ e, (ProcessActionUseCase.execute c6_env 7).2 = Except.error e) ∧
    Effect.session_save ∉ (ProcessActionUseCase.execute c6_env 7).1 := by
  have h := c6_upstream_failure_no_persist c6_env 7 base_session
    rfl rfl rfl (Or.inl rfl)
  exact ⟨h.1, h.2.1⟩
